import Mathlib

/-!
Shallow embedding of `src/gh-fix-ci/scripts/inspect_pr_checks.py`.

Pure functions of the script are translated directly.  Effectful functions
(those running the `gh` command-line client) are translated as functions of an
explicit environment (`Env`) that records, for each identifier, the result the
external command would produce; the control flow around those results is
translated from the source.  Python strings are Lean `String`s, raw byte
payloads are `List Nat` (byte values), `None`-able values are `Option`s, and
Python truthiness of strings / optional strings is made explicit (`pyTruthy`).
-/

namespace InspectPr

/-- Python `a or b` for strings: `a` when non-empty (truthy), else `b`. -/
def pyOrStr (a b : String) : String :=
  if a = "" then b else a

/-- Python truthiness of an optional string: `None` and `""` are falsy. -/
def pyTruthy (o : Option String) : Bool :=
  match o with
  | none => false
  | some s => if s = "" then false else true

/-- Python `a or b` for optional strings (`check.get(x) or check.get(y)`). -/
def pyOrOpt (a b : Option String) : Option String :=
  if pyTruthy a = true then a else b

/-- Python `str.strip()`: drop whitespace from both ends (ASCII-faithful). -/
def pyStrip (s : String) : String :=
  String.mk (((s.data.dropWhile Char.isWhitespace).reverse.dropWhile Char.isWhitespace).reverse)

/-- Python `str.lower()`: lowercase each character (ASCII-faithful). -/
def pyLower (s : String) : String :=
  String.mk (s.data.map Char.toLower)

/-- Helper for substring search: does `needle` occur inside the list? -/
def listContainsSub (needle : List Char) : List Char → Bool
  | [] => needle.isEmpty
  | c :: rest =>
    if needle.isPrefixOf (c :: rest) then true else listContainsSub needle rest

/-- Python `needle in hay` for strings. -/
def strContains (hay needle : String) : Bool :=
  listContainsSub needle.data hay.data

/-- Python `str.splitlines()` on the common terminators `\n`, `\r\n`, `\r`:
no trailing empty line is produced for a trailing terminator. -/
def splitlinesAux : List Char → List Char → List (List Char)
  | [], acc => if acc.isEmpty then [] else [acc.reverse]
  | '\r' :: '\n' :: rest, acc => acc.reverse :: splitlinesAux rest []
  | '\n' :: rest, acc => acc.reverse :: splitlinesAux rest []
  | '\r' :: rest, acc => acc.reverse :: splitlinesAux rest []
  | c :: rest, acc => splitlinesAux rest (c :: acc)

/-- Python `text.splitlines()`. -/
def splitlines (text : String) : List String :=
  (splitlinesAux text.data []).map (fun cs => String.mk cs)

/-- Python `xs[-k:]` for `k ≥ 1`: the final `k` elements (all of them when
`k` exceeds the length). -/
def pyTakeLast {α : Type} (k : Nat) (xs : List α) : List α :=
  xs.drop (xs.length - k)

/-- `FAILURE_CONCLUSIONS` of the script (a Python set; order irrelevant). -/
def FAILURE_CONCLUSIONS : List String :=
  ["failure", "cancelled", "timed_out", "action_required"]

/-- `FAILURE_STATES` of the script. -/
def FAILURE_STATES : List String :=
  ["failure", "error", "cancelled", "timed_out", "action_required"]

/-- `FAILURE_BUCKETS` of the script. -/
def FAILURE_BUCKETS : List String :=
  ["fail"]

/-- `FAILURE_MARKERS` of the script. -/
def FAILURE_MARKERS : List String :=
  ["error", "fail", "failed", "traceback", "exception", "assert", "panic",
   "fatal", "timeout", "segmentation fault"]

/-- `PENDING_LOG_MARKERS` of the script. -/
def PENDING_LOG_MARKERS : List String :=
  ["still in progress", "log will be available when it is complete"]

/-- `GhResult` of the script: exit code, decoded stdout, decoded stderr. -/
structure GhResult where
  returncode : Int
  stdout : String
  stderr : String
deriving DecidableEq

/-- UTF-8 decoding with `errors="replace"`, modelled byte-for-byte: exact on
ASCII bytes, the replacement character for any non-ASCII byte. -/
def decodeByte (b : Nat) : Char :=
  if b < 128 then Char.ofNat b else '�'

/-- Python `payload.decode(errors="replace")` on a byte list. -/
def decodeBytes (bs : List Nat) : String :=
  String.mk (bs.map decodeByte)

/-- ASCII encoding of a string as bytes (used to build concrete payloads). -/
def asciiBytes (s : String) : List Nat :=
  s.data.map Char.toNat

/-- `is_zip_payload`: does the payload start with the two magic bytes `PK`
(80, 75)? -/
def is_zip_payload (payload : List Nat) : Bool :=
  match payload with
  | a :: b :: _ => if a = 80 then (if b = 75 then true else false) else false
  | _ => false

/-- The world the script's `gh` invocations see, per identifier:
`runView id` is the result of `gh run view <id> --log`; `repoSlug` is the
result of `fetch_repo_slug`; `apiJobLogs id` is the raw result
(returncode, stdout bytes, decoded stderr) of
`gh api /repos/<slug>/actions/jobs/<id>/logs`; `runMetadata id` is the parsed
result of `fetch_run_metadata` (`gh run view <id> --json ...` plus JSON
decoding, abstracted as the environment's parsed response). -/
structure Env where
  runView : String → GhResult
  repoSlug : Option String
  apiJobLogs : String → Int × List Nat × String
  runMetadata : String → Option (List (String × String))

/-- `normalize_field`: `None` becomes `""`; otherwise strip then lowercase. -/
def normalize_field (value : Option String) : String :=
  match value with
  | none => ""
  | some s => pyLower (pyStrip s)

/-- A check record as returned by `gh pr checks --json`; absent keys are
`none`. -/
structure CheckRecord where
  name : Option String := none
  state : Option String := none
  status : Option String := none
  conclusion : Option String := none
  bucket : Option String := none
  detailsUrl : Option String := none
  link : Option String := none
deriving DecidableEq

/-- `is_failing` of the script: conclusion tier, then state-or-status tier
(Python `check.get("state") or check.get("status")`), then bucket tier. -/
def is_failing (check : CheckRecord) : Bool :=
  if FAILURE_CONCLUSIONS.contains (normalize_field check.conclusion) then true
  else if FAILURE_STATES.contains (normalize_field (pyOrOpt check.state check.status)) then true
  else FAILURE_BUCKETS.contains (normalize_field check.bucket)

/-- `is_log_pending_message`: case-insensitive substring match against the
fixed pending-log phrases. -/
def is_log_pending_message (message : String) : Bool :=
  PENDING_LOG_MARKERS.any (fun marker => strContains (pyLower message) marker)

/-- `fetch_run_log`: on a non-zero exit code the error text is
`(stderr or stdout or "").strip()`, defaulted to `"gh run view failed"`. -/
def fetch_run_log (env : Env) (run_id : String) : String × String :=
  let r := env.runView run_id
  if r.returncode ≠ 0 then
    let e := pyStrip (pyOrStr r.stderr r.stdout)
    ("", if e = "" then "gh run view failed" else e)
  else (r.stdout, "")

/-- The error message `fetch_job_log` builds for a failed `gh api` call:
`(stderr or stdout_bytes.decode(errors="replace")).strip()`, defaulted to
`"gh api job logs failed"`. -/
def jobFailureMessage (r : Int × List Nat × String) : String :=
  let m := pyStrip (pyOrStr r.2.2 (decodeBytes r.2.1))
  if m = "" then "gh api job logs failed" else m

/-- `fetch_job_log`: resolve the repository slug, call the per-job logs
endpoint, reject zip payloads, otherwise decode the bytes. -/
def fetch_job_log (env : Env) (job_id : String) : String × String :=
  if pyTruthy env.repoSlug = false then
    ("", "Error: unable to resolve repository name for job logs.")
  else
    let r := env.apiJobLogs job_id
    if r.1 ≠ 0 then ("", jobFailureMessage r)
    else if is_zip_payload r.2.1 = true then
      ("", "Job logs returned a zip archive; unable to parse.")
    else (decodeBytes r.2.1, "")

/-- `fetch_check_log`: run-level log first; on a pending-signature failure
with a (truthy) job id, fall back to the job-level log; classify the outcome
as `(text, error, status)` with status one of `"ok"`, `"pending"`,
`"error"`. -/
def fetch_check_log (env : Env) (run_id : String) (job_id : Option String) :
    String × String × String :=
  let rl := fetch_run_log env run_id
  if rl.2 = "" then (rl.1, "", "ok")
  else if is_log_pending_message rl.2 = true ∧ pyTruthy job_id = true then
    let jl := fetch_job_log env (job_id.getD "")
    if jl.1 ≠ "" then (jl.1, "", "ok")
    else if jl.2 ≠ "" ∧ is_log_pending_message jl.2 = true then ("", jl.2, "pending")
    else if jl.2 ≠ "" then ("", jl.2, "error")
    else ("", rl.2, "pending")
  else if is_log_pending_message rl.2 = true then ("", rl.2, "pending")
  else ("", rl.2, "error")

/-- The ordered fallback field list hard-coded in `fetch_checks`. -/
def FALLBACK_FIELDS : List String :=
  ["name", "state", "bucket", "link", "startedAt", "completedAt", "workflow"]

/-- One step of `parse_available_fields`' loop: the state is
(collecting flag, fields so far). -/
def parseFieldsStep (st : Bool × List String) (line : String) : Bool × List String :=
  if strContains line "Available fields:" = true then (true, st.2)
  else if st.1 = false then st
  else if pyStrip line = "" then st
  else (st.1, st.2 ++ [pyStrip line])

/-- `parse_available_fields`: after the `"Available fields:"` marker line,
collect every non-blank line (stripped) as a field name. -/
def parse_available_fields (message : String) : List String :=
  if strContains message "Available fields:" = false then []
  else ((splitlines message).foldl parseFieldsStep (false, [])).2

/-- The schema-negotiation slice of `fetch_checks`: given the combined
stderr/stdout message of the failed primary `gh pr checks` call, the field
list the retried request is issued with — `none` when the advertised field
list is absent or the intersection with `FALLBACK_FIELDS` is empty (no retry
is possible). -/
def fetch_checks_retry_fields (message : String) : Option (List String) :=
  let available := parse_available_fields message
  if available.isEmpty = true then none
  else
    let selected := FALLBACK_FIELDS.filter (fun f => available.contains f)
    if selected.isEmpty = true then none else some selected

/-- The literal part of the pattern `/actions/runs/(\d+)`. -/
def runsLit : List Char := "/actions/runs/".data

/-- The literal part of the pattern `/runs/(\d+)`. -/
def runsLit2 : List Char := "/runs/".data

/-- The literal part of the pattern `/job/(\d+)`. -/
def jobLit : List Char := "/job/".data

/-- Match `lit` followed by one-or-more digits at the head of `cs`,
returning the digit group. -/
def matchLitDigits (lit : List Char) (cs : List Char) : Option String :=
  if lit.isPrefixOf cs = true then
    let rest := cs.drop lit.length
    let d := rest.takeWhile Char.isDigit
    if d.isEmpty = true then none else some (String.mk d)
  else none

/-- `re.search` for a pattern `lit(\d+)` : try the match at every position,
left to right. -/
def searchLitDigits (lit : List Char) : List Char → Option String
  | [] => none
  | c :: rest =>
    match matchLitDigits lit (c :: rest) with
    | some r => some r
    | none => searchLitDigits lit rest

/-- Match `/actions/runs/\d+/job/(\d+)` at the head of `cs`, returning the
second (job) digit group.  The digit run after the first literal is maximal;
the regex engine cannot backtrack into it because the following character
must be the non-digit `/`. -/
def matchRunJob (cs : List Char) : Option String :=
  match matchLitDigits runsLit cs with
  | none => none
  | some _ =>
    let rest := cs.drop runsLit.length
    let rest2 := rest.drop (rest.takeWhile Char.isDigit).length
    matchLitDigits jobLit rest2

/-- `re.search` for `/actions/runs/\d+/job/(\d+)`. -/
def searchRunJob : List Char → Option String
  | [] => none
  | c :: rest =>
    match matchRunJob (c :: rest) with
    | some r => some r
    | none => searchRunJob rest

/-- `extract_run_id`: first `/actions/runs/(\d+)`, then `/runs/(\d+)`. -/
def extract_run_id (url : String) : Option String :=
  if url = "" then none
  else
    match searchLitDigits runsLit url.data with
    | some r => some r
    | none => searchLitDigits runsLit2 url.data

/-- `extract_job_id`: first `/actions/runs/\d+/job/(\d+)`, then
`/job/(\d+)`. -/
def extract_job_id (url : String) : Option String :=
  if url = "" then none
  else
    match searchRunJob url.data with
    | some j => some j
    | none => searchLitDigits jobLit url.data

/-- Does a line (lowercased) contain one of `FAILURE_MARKERS`? -/
def lineHasFailureMarker (line : String) : Bool :=
  FAILURE_MARKERS.any (fun marker => strContains (pyLower line) marker)

/-- The loop of `find_failure_index`: scan indices `k-1, k-2, ..., 0`. -/
def findFailureAux (lines : List String) : Nat → Option Nat
  | 0 => none
  | k + 1 =>
    if lineHasFailureMarker (lines.getD k "") = true then some k
    else findFailureAux lines k

/-- `find_failure_index`: backward scan from the last line for a
marker-containing line. -/
def find_failure_index (lines : List String) : Option Nat :=
  findFailureAux lines lines.length

/-- `extract_failure_snippet`: no lines — empty; no marker — the final
`max_lines` lines; marker at `i` — the window `lines[i-context : min(len,
i+context)]` (Python slice), truncated to its own final `max_lines` lines
when longer. -/
def extract_failure_snippet (log_text : String) (max_lines context : Nat) : String :=
  let lines := splitlines log_text
  if lines.isEmpty = true then ""
  else
    match find_failure_index lines with
    | none => String.intercalate "\n" (pyTakeLast max_lines lines)
    | some i =>
      let start := i - context
      let stop := min lines.length (i + context)
      let window := (lines.drop start).take (stop - start)
      String.intercalate "\n"
        (if max_lines < window.length then pyTakeLast max_lines window else window)

/-- `tail_lines`: the final `max_lines` lines, unconditionally (for the Nat
embedding, `max_lines = 0` models the Python guard `max_lines <= 0`). -/
def tail_lines (text : String) (max_lines : Nat) : String :=
  if max_lines = 0 then ""
  else String.intercalate "\n" (pyTakeLast max_lines (splitlines text))

/-- The `mergeable` field of the merge-state JSON: a boolean (older gh CLI),
a string (newer gh CLI), or anything else (null / still calculating). -/
inductive MergeableValue where
  | boolVal (b : Bool)
  | strVal (s : String)
  | otherVal
deriving DecidableEq

/-- The conflict-classification core of `check_conflicts` (after the JSON
fetch): `(hasConflicts, mergeable display)` from the raw `mergeable` value
and `mergeStateStatus`. -/
def check_conflicts_core (mergeable_raw : MergeableValue)
    (merge_state_status : String) : Bool × String :=
  let p :=
    match mergeable_raw with
    | .boolVal b => (!b, if !b then "CONFLICTING" else "MERGEABLE")
    | .strVal s => (if s = "CONFLICTING" then true else false, s)
    | .otherVal => (false, "UNKNOWN")
  (if merge_state_status = "DIRTY" then true else p.1, p.2)

/-- The record `analyze_check` builds; keys absent from the Python dict are
`none`. -/
structure AnalyzedCheck where
  name : String
  detailsUrl : String
  runId : Option String
  jobId : Option String
  status : String
  note : Option String := none
  run : Option (List (String × String)) := none
  error : Option String := none
  logSnippet : Option String := none
  logTail : Option String := none
deriving DecidableEq

/-- Python truthiness of the optional metadata dict (`if metadata:`). -/
def metaTruthy (m : Option (List (String × String))) : Bool :=
  match m with
  | none => false
  | some d => !d.isEmpty

/-- `analyze_check`: derive run/job ids from the details URL, short-circuit
to `"external"` without a run id, otherwise resolve the log and classify. -/
def analyze_check (env : Env) (check : CheckRecord) (max_lines context : Nat) :
    AnalyzedCheck :=
  let url := (pyOrOpt check.detailsUrl check.link).getD ""
  let job_id := extract_job_id url
  match extract_run_id url with
  | none =>
    { name := check.name.getD "", detailsUrl := url, runId := none,
      jobId := job_id, status := "external",
      note := some "No GitHub Actions run id detected in detailsUrl." }
  | some rid =>
    let metadata := env.runMetadata rid
    let res := fetch_check_log env rid job_id
    if res.2.2 = "pending" then
      { name := check.name.getD "", detailsUrl := url, runId := some rid,
        jobId := job_id, status := "log_pending",
        note := some (pyOrStr res.2.1 "Logs are not available yet."),
        run := if metaTruthy metadata = true then metadata else none }
    else if res.2.1 ≠ "" then
      { name := check.name.getD "", detailsUrl := url, runId := some rid,
        jobId := job_id, status := "log_unavailable",
        error := some res.2.1,
        run := if metaTruthy metadata = true then metadata else none }
    else
      { name := check.name.getD "", detailsUrl := url, runId := some rid,
        jobId := job_id, status := "ok",
        run := some (metadata.getD []),
        logSnippet := some (extract_failure_snippet res.1 max_lines context),
        logTail := some (tail_lines res.1 max_lines) }

/-! ### Specification-side definitions

These follow the wording of the specification and of the claims, to be
compared with the definitions translated from the source above. -/

/-- The largest index of a marker-containing line, as the specification
words it (`List.range` is ascending, so the last filtered index is the
largest one). -/
def largestMarkerIdx (lines : List String) : Option Nat :=
  ((List.range lines.length).filter
    (fun i => lineHasFailureMarker (lines.getD i ""))).getLast?

/-- The snippet as the specification describes it: empty text gives `""`;
without a marker, the final `max_lines` lines; with the largest
marker-containing index `i`, the window `[max(0, i-context), min(len,
i+context))` (natural subtraction is the `max` with `0`), truncated to its
own final `max_lines` lines when it exceeds `max_lines`. -/
def snippetSpec (log_text : String) (max_lines context : Nat) : String :=
  let lines := splitlines log_text
  if lines.isEmpty = true then ""
  else
    match largestMarkerIdx lines with
    | none => String.intercalate "\n" (pyTakeLast max_lines lines)
    | some i =>
      let start := i - context
      let stop := min lines.length (i + context)
      let window := (lines.drop start).take (stop - start)
      String.intercalate "\n"
        (if max_lines < window.length then pyTakeLast max_lines window else window)

/-- The job-level fallback outcome as the specification describes it,
reached once the run-level attempt failed with a pending-signature message:
without a (truthy) job id, `Pending` with the run-level reason; otherwise
the job-level fetch decides — a failure (unresolvable repository, or a
non-zero exit whose message is classified pending or error), a zip payload
(`Error` mentioning the zip archive), non-empty decoded bytes (`Ok`), or an
empty success (`Pending` with the run-level reason). -/
def log_fallback_spec (run_error : String) (job_id : Option String)
    (slug : Option String) (api : String → Int × List Nat × String) :
    String × String × String :=
  if pyTruthy job_id = false then ("", run_error, "pending")
  else if pyTruthy slug = false then
    ("", "Error: unable to resolve repository name for job logs.", "error")
  else
    let r := api (job_id.getD "")
    if r.1 ≠ 0 then
      if is_log_pending_message (jobFailureMessage r) = true then
        ("", jobFailureMessage r, "pending")
      else ("", jobFailureMessage r, "error")
    else if is_zip_payload r.2.1 = true then
      ("", "Job logs returned a zip archive; unable to parse.", "error")
    else if r.2.1 ≠ [] then (decodeBytes r.2.1, "", "ok")
    else ("", run_error, "pending")

/-- The classifier exactly as claim C4 words it: `status` is consulted only
when `state` is absent (`none`), and the three tiers are OR-ed. -/
def is_failing_claim_spec (check : CheckRecord) : Bool :=
  FAILURE_CONCLUSIONS.contains (normalize_field check.conclusion) ||
  FAILURE_STATES.contains (normalize_field
    (match check.state with
     | none => check.status
     | some s => some s)) ||
  FAILURE_BUCKETS.contains (normalize_field check.bucket)

/-- The classifier as amended: `status` is consulted when `state` is absent
or Python-falsy (the empty string), and the three tiers are OR-ed. -/
def is_failing_amended_spec (check : CheckRecord) : Bool :=
  FAILURE_CONCLUSIONS.contains (normalize_field check.conclusion) ||
  FAILURE_STATES.contains (normalize_field (pyOrOpt check.state check.status)) ||
  FAILURE_BUCKETS.contains (normalize_field check.bucket)

/-- Conflict flag as claim C8 words it: the per-case value of `mergeable`,
with `mergeStateStatus = "DIRTY"` forcing `true` independently. -/
def hasConflictsSpec (mergeable_raw : MergeableValue)
    (merge_state_status : String) : Bool :=
  (if merge_state_status = "DIRTY" then true else false) ||
  (match mergeable_raw with
   | .boolVal b => !b
   | .strVal s => if s = "CONFLICTING" then true else false
   | .otherVal => false)

/-- Display string as claim C8 words it. -/
def mergeableDisplaySpec (mergeable_raw : MergeableValue) : String :=
  match mergeable_raw with
  | .boolVal b => if b then "MERGEABLE" else "CONFLICTING"
  | .strVal s => s
  | .otherVal => "UNKNOWN"

/-! ### Helper lemmas -/

/-- A failed run-level fetch always reports a non-empty error message. -/
theorem run_log_error_ne (env : Env) (run_id : String)
    (h : (env.runView run_id).returncode ≠ 0) :
    (fetch_run_log env run_id).2 ≠ "" := by
  unfold fetch_run_log
  rw [if_pos h]
  dsimp only
  split
  · decide
  · assumption

/-- A successful run-level fetch reports an empty error message. -/
theorem run_log_ok (env : Env) (run_id : String)
    (h : (env.runView run_id).returncode = 0) :
    fetch_run_log env run_id = ((env.runView run_id).stdout, "") := by
  unfold fetch_run_log
  rw [if_neg (by simp [h])]

/-- `fetch_run_log` depends on the environment only through `runView`. -/
theorem fetch_run_log_congr (env env₂ : Env) (run_id : String)
    (h : env₂.runView run_id = env.runView run_id) :
    fetch_run_log env₂ run_id = fetch_run_log env run_id := by
  unfold fetch_run_log
  rw [h]

/-- The job-level failure message is never empty. -/
theorem jobFailureMessage_ne (r : Int × List Nat × String) :
    jobFailureMessage r ≠ "" := by
  simp only [jobFailureMessage]
  by_cases h : pyStrip (pyOrStr r.2.2 (decodeBytes r.2.1)) = ""
  · rw [if_pos h]; decide
  · rw [if_neg h]; exact h

/-- Decoding is empty exactly on the empty byte list. -/
theorem decodeBytes_eq_empty_iff (bs : List Nat) :
    decodeBytes bs = "" ↔ bs = [] := by
  constructor
  · intro h
    have h2 : (decodeBytes bs).data = ("" : String).data := by rw [h]
    have h3 : bs.map decodeByte = [] := h2
    exact List.map_eq_nil_iff.1 h3
  · intro h
    rw [h]
    rfl

/-- Substring search as list containment. -/
theorem listContainsSub_iff (n l : List Char) :
    listContainsSub n l = true ↔ n <:+: l := by
  induction l with
  | nil =>
    rw [listContainsSub]
    rw [List.infix_nil, List.isEmpty_iff]
  | cons c rest ih =>
    rw [listContainsSub]
    by_cases hp : n.isPrefixOf (c :: rest) = true
    · rw [if_pos hp]
      simp only [true_iff]
      exact (List.isPrefixOf_iff_prefix.1 hp).isInfix
    · rw [if_neg hp, ih, List.infix_cons_iff]
      constructor
      · exact Or.inr
      · intro h
        rcases h with h | h
        · exact absurd (List.isPrefixOf_iff_prefix.2 h) hp
        · exact h

/-- `strContains` as list containment. -/
theorem strContains_iff (hay needle : String) :
    strContains hay needle = true ↔ needle.data <:+: hay.data :=
  listContainsSub_iff needle.data hay.data

/-- A message containing `"still in progress"` is classified pending (the
phrase is lowercase and fixed by lowercasing, so it survives `lower()`). -/
theorem pending_of_contains_still_in_progress (m : String)
    (h : strContains m "still in progress" = true) :
    is_log_pending_message m = true := by
  have hinf : ("still in progress" : String).data <:+: m.data :=
    (strContains_iff m "still in progress").1 h
  have hmap := hinf.map Char.toLower
  have hfix : ("still in progress" : String).data.map Char.toLower =
      ("still in progress" : String).data := by decide
  unfold is_log_pending_message
  apply List.any_eq_true.2
  refine ⟨"still in progress", by decide, ?_⟩
  apply (strContains_iff (pyLower m) "still in progress").2
  show ("still in progress" : String).data <:+: m.data.map Char.toLower
  rw [← hfix]
  exact hmap

/-- The backward scan of `find_failure_index` computes the last (largest)
marker-containing index below the bound. -/
theorem findFailureAux_eq (lines : List String) (k : Nat) :
    findFailureAux lines k =
      ((List.range k).filter
        (fun i => lineHasFailureMarker (lines.getD i ""))).getLast? := by
  induction k with
  | zero => rfl
  | succ n ih =>
    rw [findFailureAux, List.range_succ, List.filter_append]
    by_cases h : lineHasFailureMarker (lines.getD n "") = true
    · rw [if_pos h]
      have h' : lineHasFailureMarker ((lines[n]?).getD "") = true := by simpa using h
      have hf : List.filter (fun i => lineHasFailureMarker (lines.getD i "")) [n] = [n] := by
        simp [h']
      rw [hf, List.getLast?_concat]
    · rw [if_neg h]
      have h' : lineHasFailureMarker ((lines[n]?).getD "") = false := by simpa using h
      have hf : List.filter (fun i => lineHasFailureMarker (lines.getD i "")) [n] = [] := by
        simp [h']
      rw [hf, List.append_nil, ih]

/-- The code's backward marker scan agrees with the specification's
largest-index description. -/
theorem find_failure_index_eq_largest (lines : List String) :
    find_failure_index lines = largestMarkerIdx lines :=
  findFailureAux_eq lines lines.length

/-- A match of the full `/actions/runs/\d+/job/(\d+)` pattern at some
position yields a match of the run-id pattern `/actions/runs/(\d+)`. -/
theorem searchLitDigits_isSome_of_searchRunJob (cs : List Char) (j : String)
    (h : searchRunJob cs = some j) :
    (searchLitDigits runsLit cs).isSome = true := by
  induction cs with
  | nil => rw [searchRunJob] at h; exact Option.noConfusion h
  | cons c rest ih =>
    rw [searchRunJob] at h
    rw [searchLitDigits]
    cases hml2 : matchLitDigits runsLit (c :: rest) with
    | some d => rfl
    | none =>
      have hmr : matchRunJob (c :: rest) = none := by
        unfold matchRunJob
        rw [hml2]
      rw [hmr] at h
      exact ih h

/-- The repository-slug failure message is not a pending signature. -/
theorem slug_message_not_pending :
    is_log_pending_message "Error: unable to resolve repository name for job logs." = false := by
  decide

/-- The zip-archive message is not a pending signature. -/
theorem zip_message_not_pending :
    is_log_pending_message "Job logs returned a zip archive; unable to parse." = false := by
  decide

/-- A zero run-level exit code short-circuits `fetch_check_log` to `Ok` with
the run-level stdout. -/
theorem fetch_check_log_ok (env : Env) (run_id : String) (job_id : Option String)
    (h : (env.runView run_id).returncode = 0) :
    fetch_check_log env run_id job_id = ((env.runView run_id).stdout, "", "ok") := by
  have hok := run_log_ok env run_id h
  simp [fetch_check_log, hok]

/-- A non-zero, non-pending run-level failure short-circuits
`fetch_check_log` to `Error` with the run-level message. -/
theorem fetch_check_log_error (env : Env) (run_id : String)
    (job_id : Option String)
    (hne : (env.runView run_id).returncode ≠ 0)
    (hnp : is_log_pending_message ((fetch_run_log env run_id).2) = false) :
    fetch_check_log env run_id job_id = ("", (fetch_run_log env run_id).2, "error") := by
  have h2 := run_log_error_ne env run_id hne
  simp [fetch_check_log, h2, hnp]

/-! ### Concrete test fixtures used by witnesses -/

/-- Environment whose run-level log command succeeds. -/
def envRunOk : Env :=
  { runView := fun _ => { returncode := 0, stdout := "all green\n", stderr := "" },
    repoSlug := none,
    apiJobLogs := fun _ => (1, [], "unused"),
    runMetadata := fun _ => none }

/-- Environment whose run-level log is pending and whose job endpoint
returns an empty payload with exit code zero. -/
def envJobEmpty : Env :=
  { runView := fun _ => { returncode := 1, stdout := "", stderr := "run is still in progress" },
    repoSlug := some "octo/repo",
    apiJobLogs := fun _ => (0, [], ""),
    runMetadata := fun _ => none }

/-- Environment whose run-level log is pending and whose job endpoint
returns a zip payload (magic bytes 80, 75). -/
def envJobZip : Env :=
  { runView := fun _ =>
      { returncode := 1, stdout := "",
        stderr := "log will be available when it is complete" },
    repoSlug := some "octo/repo",
    apiJobLogs := fun _ => (0, [80, 75, 3, 4], ""),
    runMetadata := fun _ => none }

/-- The check record of the end-to-end scenario of claim C6. -/
def exCheck : CheckRecord :=
  { name := some "build", conclusion := some "failure",
    detailsUrl := some "https://host/x/actions/runs/42/job/7" }

/-- Environment realising the end-to-end scenario of claim C6. -/
def exEnvC6 : Env :=
  { runView := fun _ =>
      { returncode := 1, stdout := "", stderr := "run 42 is still in progress" },
    repoSlug := some "octo/repo",
    apiJobLogs := fun _ => (0, asciiBytes "...\nError: build failed\nmore context\n", ""),
    runMetadata := fun _ => none }

/-- A failing check whose details URL carries no GitHub Actions run id. -/
def exCheck10 : CheckRecord :=
  { name := some "vendor-scan", conclusion := some "failure",
    detailsUrl := some "https://scanner.example.com/report/123" }

/-! ### Claim theorems -/

/-- C8: for every merge-state record, the conflict-detection core computes
`hasConflicts` as the per-case value of `mergeable` (boolean `false` —
conflicting; boolean `true` — mergeable; a string — conflicting exactly when
it equals `"CONFLICTING"`, displayed verbatim; anything else — no conflict,
displayed `"UNKNOWN"`), with `mergeStateStatus = "DIRTY"` forcing
`hasConflicts` to `true` independently of the `mergeable` value. -/
theorem conflict_detection_spec_eq (mergeable_raw : MergeableValue)
    (merge_state_status : String) :
    check_conflicts_core mergeable_raw merge_state_status =
      (hasConflictsSpec mergeable_raw merge_state_status,
       mergeableDisplaySpec mergeable_raw) := by
  cases mergeable_raw with
  | boolVal b =>
    cases b <;> by_cases h : merge_state_status = "DIRTY" <;>
      simp [check_conflicts_core, hasConflictsSpec, mergeableDisplaySpec, h]
  | strVal s =>
    by_cases h : merge_state_status = "DIRTY" <;>
      by_cases h2 : s = "CONFLICTING" <;>
        simp [check_conflicts_core, hasConflictsSpec, mergeableDisplaySpec, h, h2]
  | otherVal =>
    by_cases h : merge_state_status = "DIRTY" <;>
      simp [check_conflicts_core, hasConflictsSpec, mergeableDisplaySpec, h]

/-- C4 (counterexample): the claim reads `status` only when `state` is
absent, but the code's Python `or` also falls through when `state` is the
empty string: on `{state: "", status: "failure"}` the code classifies the
check as failing while the claim's reading does not. -/
theorem check_classifier_claim_counterexample :
    is_failing { state := some "", status := some "failure" } = true ∧
    is_failing_claim_spec { state := some "", status := some "failure" } = false := by
  decide

/-- C4 (amended): `is_failing` is true iff the normalized conclusion is in
the failure-conclusion set, or the normalized state — with `status`
substituted when `state` is absent or the empty string (Python-falsy) — is
in the failure-state set, or the normalized bucket is `"fail"`; the
short-circuiting evaluation equals the OR of the three tiers, and a record
with no failing field yields `false`. -/
theorem check_classifier_amended (check : CheckRecord) :
    is_failing check = is_failing_amended_spec check := by
  cases h1 : FAILURE_CONCLUSIONS.contains (normalize_field check.conclusion) <;>
    cases h2 : FAILURE_STATES.contains
      (normalize_field (pyOrOpt check.state check.status)) <;>
      simp [is_failing, is_failing_amended_spec, h1, h2, Bool.or_assoc]

/-- C5: when the failed check-listing command's error output advertises an
`"Available fields:"` list, the retried request's field list is exactly the
ordered intersection of the fixed fallback list with the advertised fields,
preserving fallback-list order. -/
theorem schema_negotiator_retry_fields (message : String)
    (h : FALLBACK_FIELDS.filter
      (fun f => (parse_available_fields message).contains f) ≠ []) :
    fetch_checks_retry_fields message =
      some (FALLBACK_FIELDS.filter
        (fun f => (parse_available_fields message).contains f)) := by
  simp only [fetch_checks_retry_fields]
  have hav : ((parse_available_fields message).isEmpty = true) → False := by
    intro hpa
    apply h
    rw [List.isEmpty_iff.1 hpa]
    rfl
  rw [if_neg hav]
  rw [if_neg (by simpa [List.isEmpty_iff] using h)]

/-- C5 (witness): the advertised list `name, bucket, link` yields the retry
field list `[name, bucket, link]`. -/
theorem schema_negotiator_retry_fields_witness :
    fetch_checks_retry_fields
        "Unknown JSON field\nAvailable fields:\n  name\n  bucket\n  link\n" =
      some ["name", "bucket", "link"] := by
  have h := schema_negotiator_retry_fields
    "Unknown JSON field\nAvailable fields:\n  name\n  bucket\n  link\n" (by decide)
  rw [h]
  decide

/-- C7 (counterexample): the fallback pattern `/job/(\d+)` extracts a job id
from a URL carrying no run id, so a JobIdentifier can exist without a
RunIdentifier. -/
theorem job_id_without_run_id_counterexample :
    extract_job_id "https://host/job/7" = some "7" ∧
    extract_run_id "https://host/job/7" = none := by
  decide

/-- C7 (amended): whenever the job id is extracted through the run-scoped
pattern `/actions/runs/\d+/job/(\d+)`, the run-id extraction on the same URL
succeeds; only the bare `/job/(\d+)` fallback can yield a job id without a
run id. -/
theorem job_id_needs_run_id_amended (url : String) (j : String)
    (h : searchRunJob url.data = some j) :
    (extract_run_id url).isSome = true := by
  have hne : url ≠ "" := by
    intro hu
    subst hu
    have hnil : ("" : String).data = ([] : List Char) := rfl
    rw [hnil, searchRunJob] at h
    exact Option.noConfusion h
  unfold extract_run_id
  rw [if_neg hne]
  have hs := searchLitDigits_isSome_of_searchRunJob url.data j h
  cases hd : searchLitDigits runsLit url.data with
  | some r => rfl
  | none => rw [hd] at hs; exact absurd hs (by simp)

/-- C7 (amended, witness): a run-scoped job URL yields a run id. -/
theorem job_id_needs_run_id_amended_witness :
    (extract_run_id "https://host/x/actions/runs/42/job/7").isSome = true :=
  job_id_needs_run_id_amended "https://host/x/actions/runs/42/job/7" "7" (by decide)

/-- C3: for every log text and bounds `max_lines ≥ 1`, `context ≥ 1`, the
snippet extractor returns the empty string on empty input, the final
`max_lines` lines when no line contains a failure marker, and otherwise the
window `[max(0, i-context), min(len, i+context))` around the largest
marker-containing index `i`, truncated to its own final `max_lines` lines
when it exceeds `max_lines`. -/
theorem snippet_extractor_spec_eq (log_text : String) (max_lines context : Nat)
    (h1 : 1 ≤ max_lines) (h2 : 1 ≤ context) :
    extract_failure_snippet log_text max_lines context =
      snippetSpec log_text max_lines context := by
  simp only [extract_failure_snippet, snippetSpec]
  rw [find_failure_index_eq_largest]

/-- C3 (witness): the extractor agrees with the specification on a concrete
log. -/
theorem snippet_extractor_spec_eq_witness :
    extract_failure_snippet "a\nerror x\nb\nc" 2 1 =
      snippetSpec "a\nerror x\nb\nc" 2 1 :=
  snippet_extractor_spec_eq "a\nerror x\nb\nc" 2 1 (by decide) (by decide)

/-- C10: a failing check whose details URL yields no run id is analyzed as
`"external"` with the no-run-id note, carries no run metadata, log snippet,
log tail, or error field, and its analysis never touches the log-resolution
environment. -/
theorem external_check_no_log_resolution (env env₂ : Env) (check : CheckRecord)
    (max_lines context : Nat)
    (hfail : is_failing check = true)
    (hrun : extract_run_id ((pyOrOpt check.detailsUrl check.link).getD "") = none) :
    analyze_check env check max_lines context =
      analyze_check env₂ check max_lines context ∧
    analyze_check env check max_lines context =
      { name := check.name.getD "",
        detailsUrl := (pyOrOpt check.detailsUrl check.link).getD "",
        runId := none,
        jobId := extract_job_id ((pyOrOpt check.detailsUrl check.link).getD ""),
        status := "external",
        note := some "No GitHub Actions run id detected in detailsUrl.",
        run := none, error := none, logSnippet := none, logTail := none } := by
  have hmain : ∀ e : Env, analyze_check e check max_lines context =
      { name := check.name.getD "",
        detailsUrl := (pyOrOpt check.detailsUrl check.link).getD "",
        runId := none,
        jobId := extract_job_id ((pyOrOpt check.detailsUrl check.link).getD ""),
        status := "external",
        note := some "No GitHub Actions run id detected in detailsUrl.",
        run := none, error := none, logSnippet := none, logTail := none } := by
    intro e
    simp only [analyze_check]
    rw [hrun]
  exact ⟨(hmain env).trans (hmain env₂).symm, hmain env⟩

/-- C10 (witness): the external classification at a concrete failing check,
under two different environments. -/
theorem external_check_no_log_resolution_witness :
    analyze_check envRunOk exCheck10 160 30 =
      analyze_check envJobEmpty exCheck10 160 30 ∧
    analyze_check envRunOk exCheck10 160 30 =
      { name := exCheck10.name.getD "",
        detailsUrl := (pyOrOpt exCheck10.detailsUrl exCheck10.link).getD "",
        runId := none,
        jobId := extract_job_id ((pyOrOpt exCheck10.detailsUrl exCheck10.link).getD ""),
        status := "external",
        note := some "No GitHub Actions run id detected in detailsUrl.",
        run := none, error := none, logSnippet := none, logTail := none } :=
  external_check_no_log_resolution envRunOk envJobEmpty exCheck10 160 30
    (by decide) (by decide)

/-- C1: the log resolver short-circuits on the run-level attempt — a zero
exit yields `Ok` with exactly the run-level stdout, and a non-pending
failure yields `Error` with the run-level message, in both cases
independently of the job-level parts of the environment (the job endpoint is
never consulted) and of the presence of a job id. -/
theorem log_resolver_run_level_short_circuit (env env₂ : Env) (run_id : String)
    (job_id : Option String)
    (hagree : env₂.runView run_id = env.runView run_id)
    (hcase : (env.runView run_id).returncode = 0 ∨
      ((env.runView run_id).returncode ≠ 0 ∧
       is_log_pending_message ((fetch_run_log env run_id).2) = false)) :
    fetch_check_log env run_id job_id = fetch_check_log env₂ run_id job_id ∧
    fetch_check_log env run_id job_id =
      (if (env.runView run_id).returncode = 0
       then ((env.runView run_id).stdout, "", "ok")
       else ("", (fetch_run_log env run_id).2, "error")) := by
  have hrl := fetch_run_log_congr env env₂ run_id hagree
  rcases hcase with h0 | ⟨hne, hnp⟩
  · constructor
    · rw [fetch_check_log_ok env run_id job_id h0,
        fetch_check_log_ok env₂ run_id job_id (by rw [hagree]; exact h0), hagree]
    · rw [if_pos h0]
      exact fetch_check_log_ok env run_id job_id h0
  · constructor
    · rw [fetch_check_log_error env run_id job_id hne hnp,
        fetch_check_log_error env₂ run_id job_id (by rw [hagree]; exact hne)
          (by rw [hrl]; exact hnp), hrl]
    · rw [if_neg hne]
      exact fetch_check_log_error env run_id job_id hne hnp

/-- C1 (witness): the short-circuit at a concrete succeeding environment. -/
theorem log_resolver_run_level_short_circuit_witness :
    fetch_check_log envRunOk "1" (some "2") = fetch_check_log envRunOk "1" (some "2") ∧
    fetch_check_log envRunOk "1" (some "2") =
      (if (envRunOk.runView "1").returncode = 0
       then ((envRunOk.runView "1").stdout, "", "ok")
       else ("", (fetch_run_log envRunOk "1").2, "error")) :=
  log_resolver_run_level_short_circuit envRunOk envRunOk "1" (some "2") rfl
    (Or.inl (by decide))

/-- C9: when the run-level attempt is pending, a job id is present, and the
job-level fetch exits zero with an empty (hence non-zip) payload, the
outcome is `Pending` carrying the run-level error message — not `Ok` with an
empty log and not `Error`. -/
theorem log_resolver_empty_job_log_pending (env : Env) (run_id : String)
    (job_id : Option String) (s : String)
    (h1 : (env.runView run_id).returncode ≠ 0)
    (h2 : is_log_pending_message ((fetch_run_log env run_id).2) = true)
    (h3 : pyTruthy job_id = true)
    (h4 : pyTruthy env.repoSlug = true)
    (h5 : env.apiJobLogs (job_id.getD "") = (0, [], s)) :
    fetch_check_log env run_id job_id = ("", (fetch_run_log env run_id).2, "pending") := by
  have hne := run_log_error_ne env run_id h1
  have hjl : fetch_job_log env (job_id.getD "") = ("", "") := by
    simp [fetch_job_log, h4, h5, is_zip_payload, decodeBytes]
  simp [fetch_check_log, hne, h2, h3, hjl]

/-- C9 (witness): the empty-payload fallback at a concrete environment. -/
theorem log_resolver_empty_job_log_pending_witness :
    fetch_check_log envJobEmpty "5" (some "6") =
      ("", (fetch_run_log envJobEmpty "5").2, "pending") :=
  log_resolver_empty_job_log_pending envJobEmpty "5" (some "6") ""
    (by decide) (by decide) (by decide) (by decide) (by decide)

/-- C2: when the run-level attempt fails with a pending-signature message,
the outcome is the specification's job-level fallback classification —
`Pending` with the run-level reason without a (truthy) job id; otherwise
`Ok` with the decoded bytes on a non-empty non-zip success, `Error`
mentioning the zip archive on a `PK` payload, `Pending` on a
pending-signature job failure, `Error` with the job-level message on any
other job failure, and `Pending` with the run-level reason on an empty
success. -/
theorem log_resolver_job_fallback (env : Env) (run_id : String)
    (job_id : Option String)
    (h1 : (env.runView run_id).returncode ≠ 0)
    (h2 : is_log_pending_message ((fetch_run_log env run_id).2) = true) :
    fetch_check_log env run_id job_id =
      log_fallback_spec ((fetch_run_log env run_id).2) job_id env.repoSlug
        env.apiJobLogs := by
  have hne := run_log_error_ne env run_id h1
  by_cases hj : pyTruthy job_id = true
  case neg =>
    have hj' : pyTruthy job_id = false := by simpa using hj
    simp [fetch_check_log, log_fallback_spec, hne, h2, hj']
  case pos =>
    by_cases hs : pyTruthy env.repoSlug = true
    case neg =>
      have hs' : pyTruthy env.repoSlug = false := by simpa using hs
      have hjl : fetch_job_log env (job_id.getD "") =
          ("", "Error: unable to resolve repository name for job logs.") := by
        simp [fetch_job_log, hs']
      simp [fetch_check_log, log_fallback_spec, hne, h2, hj, hs', hjl,
        slug_message_not_pending]
    case pos =>
      rcases hr : env.apiJobLogs (job_id.getD "") with ⟨rc, bs, serr⟩
      by_cases hrc : rc = 0
      case neg =>
        have hjl : fetch_job_log env (job_id.getD "") =
            ("", jobFailureMessage (rc, bs, serr)) := by
          simp [fetch_job_log, hs, hr, hrc]
        have hjm := jobFailureMessage_ne (rc, bs, serr)
        by_cases hp : is_log_pending_message (jobFailureMessage (rc, bs, serr)) = true
        · simp [fetch_check_log, log_fallback_spec, hne, h2, hj, hs, hr, hrc,
            hjl, hjm, hp]
        · have hp' : is_log_pending_message (jobFailureMessage (rc, bs, serr)) = false := by
            simpa using hp
          simp [fetch_check_log, log_fallback_spec, hne, h2, hj, hs, hr, hrc,
            hjl, hjm, hp']
      case pos =>
        subst hrc
        by_cases hz : is_zip_payload bs = true
        · have hjl : fetch_job_log env (job_id.getD "") =
              ("", "Job logs returned a zip archive; unable to parse.") := by
            simp [fetch_job_log, hs, hr, hz]
          simp [fetch_check_log, log_fallback_spec, hne, h2, hj, hs, hr, hz,
            hjl, zip_message_not_pending]
        · have hz' : is_zip_payload bs = false := by simpa using hz
          have hjl : fetch_job_log env (job_id.getD "") = (decodeBytes bs, "") := by
            simp [fetch_job_log, hs, hr, hz']
          by_cases hb : bs = []
          · subst hb
            simp [fetch_check_log, log_fallback_spec, hne, h2, hj, hs, hr, hz',
              hjl, decodeBytes]
          · have hd : decodeBytes bs ≠ "" := fun hc =>
              hb ((decodeBytes_eq_empty_iff bs).1 hc)
            simp [fetch_check_log, log_fallback_spec, hne, h2, hj, hs, hr, hz',
              hjl, hb, hd]

/-- C2 (witness): the fallback classification at a concrete environment
whose job endpoint returns a zip payload. -/
theorem log_resolver_job_fallback_witness :
    fetch_check_log envJobZip "9" (some "3") =
      log_fallback_spec ((fetch_run_log envJobZip "9").2) (some "3")
        envJobZip.repoSlug envJobZip.apiJobLogs :=
  log_resolver_job_fallback envJobZip "9" (some "3") (by decide) (by decide)

/-- C6: for the failing check `build` with details URL
`https://host/x/actions/runs/42/job/7`, a run-level log fetch failing with a
message containing `"still in progress"`, and a job-level fetch for job `7`
succeeding with `"...\nError: build failed\nmore context\n"`, the analyzed
check has run id `42`, job id `7`, status `ok`, and a non-empty log snippet
containing the `Error: build failed` line. -/
theorem end_to_end_build_failure (env : Env) (s : String)
    (h1 : (env.runView "42").returncode ≠ 0)
    (h2 : strContains ((fetch_run_log env "42").2) "still in progress" = true)
    (h3 : pyTruthy env.repoSlug = true)
    (h4 : env.apiJobLogs "7" =
      (0, asciiBytes "...\nError: build failed\nmore context\n", s)) :
    (analyze_check env exCheck 160 30).runId = some "42" ∧
    (analyze_check env exCheck 160 30).jobId = some "7" ∧
    (analyze_check env exCheck 160 30).status = "ok" ∧
    (analyze_check env exCheck 160 30).logSnippet.getD "" ≠ "" ∧
    strContains ((analyze_check env exCheck 160 30).logSnippet.getD "")
      "Error: build failed" = true := by
  have hpend := pending_of_contains_still_in_progress _ h2
  have hne := run_log_error_ne env "42" h1
  have hz : is_zip_payload (asciiBytes "...\nError: build failed\nmore context\n") = false := by
    decide
  have hdec : decodeBytes (asciiBytes "...\nError: build failed\nmore context\n") =
      "...\nError: build failed\nmore context\n" := by decide
  have hjl : fetch_job_log env "7" = ("...\nError: build failed\nmore context\n", "") := by
    simp [fetch_job_log, h3, h4, hz, hdec]
  have hfcl : fetch_check_log env "42" (some "7") =
      ("...\nError: build failed\nmore context\n", "", "ok") := by
    simp [fetch_check_log, hne, hpend, hjl, pyTruthy]
  have hurl : (pyOrOpt exCheck.detailsUrl exCheck.link).getD "" =
      "https://host/x/actions/runs/42/job/7" := by decide
  have hrid : extract_run_id "https://host/x/actions/runs/42/job/7" = some "42" := by
    decide
  have hjid : extract_job_id "https://host/x/actions/runs/42/job/7" = some "7" := by
    decide
  have hsnip : extract_failure_snippet "...\nError: build failed\nmore context\n" 160 30 =
      "...\nError: build failed\nmore context" := by decide
  have ha : analyze_check env exCheck 160 30 =
      { name := exCheck.name.getD "",
        detailsUrl := "https://host/x/actions/runs/42/job/7",
        runId := some "42", jobId := some "7", status := "ok",
        run := some ((env.runMetadata "42").getD []),
        logSnippet := some
          (extract_failure_snippet "...\nError: build failed\nmore context\n" 160 30),
        logTail := some (tail_lines "...\nError: build failed\nmore context\n" 160) } := by
    simp only [analyze_check, hurl, hrid, hjid]
    rw [hfcl]
    simp
  rw [ha]
  refine ⟨rfl, rfl, rfl, ?_, ?_⟩
  · rw [hsnip]
    show ("...\nError: build failed\nmore context" : String) ≠ ""
    decide
  · rw [hsnip]
    show strContains "...\nError: build failed\nmore context" "Error: build failed" = true
    decide

/-- C6 (witness): the end-to-end scenario at a concrete environment. -/
theorem end_to_end_build_failure_witness :
    (analyze_check exEnvC6 exCheck 160 30).runId = some "42" ∧
    (analyze_check exEnvC6 exCheck 160 30).jobId = some "7" ∧
    (analyze_check exEnvC6 exCheck 160 30).status = "ok" ∧
    (analyze_check exEnvC6 exCheck 160 30).logSnippet.getD "" ≠ "" ∧
    strContains ((analyze_check exEnvC6 exCheck 160 30).logSnippet.getD "")
      "Error: build failed" = true :=
  end_to_end_build_failure exEnvC6 "" (by decide) (by decide) (by decide) rfl

end InspectPr
